import Mathlib

/-!
Verification development for the AI events scraper service (main.py).

The file embeds, as executable Lean definitions, the parts of the program
that the specification talks about:

* the keyword list AI_KEYWORDS and the word-bounded, case-insensitive
  keyword match used to filter events;
* per-card field extraction (title, date, description, link) with its
  per-field defaults, whitespace stripping, and the pattern search that
  pulls a URL out of a click-handler string;
* the card selection step: a primary class selector with a fallback
  selector over div elements;
* the request handler: API-key verification followed by the
  render-extract-filter pipeline, with its 401 and 500 error responses.

The renderer (headless browser) is modelled by its outcome: either an
error string or a parsed document, fed to the handler as input.
-/

/-- One event record as emitted by the endpoint: the four string fields of
the dictionaries appended to events_data in main.py. -/
structure EventRecord where
  title : String
  date : String
  description : String
  link : String
deriving DecidableEq

/-- The registration button of a card: it may or may not carry a
click-handler attribute (the onclick string). -/
structure RegButton where
  onclick : Option String
deriving DecidableEq

/-- A candidate card, reduced to the sub-elements the extraction loop
reads: the text of the title heading (h3.c-heading-6), of the date
paragraph (p.title-date), of the description paragraph
(p.gridcard-description-min), each absent when the element is missing,
and the registration button when present. -/
structure Card where
  title_tag : Option String
  date_tag : Option String
  description_tag : Option String
  reg_button : Option RegButton
deriving DecidableEq

/-- A top-level element of the parsed document: its tag name, its class
attribute as the list of class tokens (none when the attribute is
absent), and the card content used if the element is selected. -/
structure DomElement where
  tag : String
  classes : Option (List String)
  card : Card
deriving DecidableEq

/-- The keyword list AI_KEYWORDS of main.py, in source order. -/
def AI_KEYWORDS : List String :=
  ["AI", "Artificial Intelligence", "Machine Learning", "ML",
   "Deep Learning", "Cognitive Services", "Azure AI", "Copilot",
   "Generative AI", "Neural Networks", "Data Science", "Intelligent Apps"]

/-- Word characters for the regex word-boundary assertion, modelled over
the ASCII range (letters, digits, underscore); every keyword and every
input considered here is ASCII. -/
def isWordChar (c : Char) : Bool :=
  c.isAlphanum || c == '_'

/-- Lowercased character list of a string; used to model the IGNORECASE
flag of the regex calls. -/
def lcs (s : String) : List Char :=
  s.data.map Char.toLower

/-- Character of a list at an index, with a space (a non-word character)
standing for out-of-range positions. -/
def charAt (l : List Char) (i : Nat) : Char :=
  l.getD i ' '

/-- The regex word-boundary assertion at position i of l: the position
separates a word character from a non-word character (positions outside
the text count as non-word). -/
def hasBoundary (l : List Char) (i : Nat) : Bool :=
  let prev := if i = 0 then ' ' else charAt l (i - 1)
  isWordChar prev != isWordChar (charAt l i)

/-- A match of the escaped keyword kw at position i of l, with a word
boundary on each side: the pattern built in main.py from a backslash-b,
the escaped keyword, and a closing backslash-b. -/
def matchKeywordAt (kw l : List Char) (i : Nat) : Bool :=
  kw.isPrefixOf (l.drop i) && hasBoundary l i && hasBoundary l (i + kw.length)

/-- The keyword-match predicate of the filter: the word-bounded keyword
pattern is searched anywhere in the text, case-insensitively. -/
def matchesKeyword (keyword text : String) : Bool :=
  (List.range ((lcs text).length + 1)).any fun i =>
    matchKeywordAt (lcs keyword) (lcs text) i

/-- The is_ai_event condition of main.py on a (title, description) pair:
some keyword of AI_KEYWORDS matches the title or the description. -/
def keywordHit (title description : String) : Bool :=
  AI_KEYWORDS.any fun keyword =>
    matchesKeyword keyword title || matchesKeyword keyword description

/-- The include decision of the topic filter for a record; it reads only
the title and description fields. -/
def isAiEvent (r : EventRecord) : Bool :=
  keywordHit r.title r.description

/-- The topic filter over a list of records, as performed by the loop in
main.py: records are kept in input order when isAiEvent holds. -/
def filterEvents (l : List EventRecord) : List EventRecord :=
  l.filter isAiEvent

/-- Whitespace characters removed by strip on extracted text. -/
def isPySpace (c : Char) : Bool :=
  c == ' ' || c == '\t' || c == '\n' || c == '\r' || c == '\x0b' || c == '\x0c'

/-- Leading/trailing whitespace removal applied by get_text with
strip=True. -/
def pyStrip (s : String) : String :=
  String.mk (((s.data.dropWhile isPySpace).reverse.dropWhile isPySpace).reverse)

/-- The single-quote character, used by the click-handler URL pattern. -/
def squote : Char :=
  Char.ofNat 39

/-- A one-character string holding a single quote. -/
def squoteStr : String :=
  String.mk [squote]

/-- The literal head of the URL pattern searched in the click handler:
the text window.open followed by an opening parenthesis and a single
quote. -/
def openPat : List Char :=
  "window.open(".data ++ [squote]

/-- An attempted match of the URL pattern at the head of l: the literal
head, then one or more non-quote characters (the captured URL), then a
closing single quote. -/
def urlFromOpenAt (l : List Char) : Option (List Char) :=
  if openPat.isPrefixOf l then
    let rest := l.drop openPat.length
    let run := rest.takeWhile fun c => c != squote
    if 0 < run.length && run.length < rest.length then some run else none
  else none

/-- Leftmost search of the URL pattern, as performed by re.search: try a
match at each position from the left and return the first capture. -/
def searchOpenUrl : List Char → Option (List Char)
  | [] => none
  | c :: t =>
    match urlFromOpenAt (c :: t) with
    | some r => some r
    | none => searchOpenUrl t

/-- The first captured window.open URL argument of a click-handler
string, when the pattern matches anywhere in it. -/
def findWindowOpenUrl (onclick : String) : Option String :=
  (searchOpenUrl onclick.data).map String.mk

/-- Link extraction for a card: the link stays N/A unless a registration
button is present with a truthy (non-empty) onclick attribute in which
the URL pattern matches; then the link is the captured URL. -/
def extractLink (c : Card) : String :=
  match c.reg_button with
  | none => "N/A"
  | some b =>
    match b.onclick with
    | none => "N/A"
    | some oc =>
      if oc = "" then "N/A"
      else
        match findWindowOpenUrl oc with
        | some u => u
        | none => "N/A"

/-- Field extraction for one card, exactly the per-card body of the loop
in main.py: stripped text of each element when present, with defaults
N/A (title, date), empty string (description) and N/A (link). -/
def extractCard (c : Card) : EventRecord :=
  { title := match c.title_tag with | some t => pyStrip t | none => "N/A"
    date := match c.date_tag with | some t => pyStrip t | none => "N/A"
    description := match c.description_tag with | some t => pyStrip t | none => ""
    link := extractLink c }

/-- Case-insensitive substring test: pat occurs inside s after
lowercasing both. -/
def containsCI (pat s : String) : Bool :=
  (List.range ((lcs s).length + 1)).any fun i =>
    (lcs pat).isPrefixOf ((lcs s).drop i)

/-- The primary card selector: a div whose class attribute value is
exactly the three-class combination searched by find_all. -/
def primaryCardMatch (e : DomElement) : Bool :=
  e.tag == "div" &&
    match e.classes with
    | some cl => " ".intercalate cl == "c-card bgcolor-white grideventscroll"
    | none => false

/-- The fallback selector of main.py: a div one of whose class tokens
contains card or event as a case-insensitive substring (the compiled
pattern card|event with IGNORECASE, searched in the class attribute). -/
def fallbackCardMatch (e : DomElement) : Bool :=
  e.tag == "div" &&
    match e.classes with
    | some cl => cl.any fun c => containsCI "card" c || containsCI "event" c
    | none => false

/-- The fallback selector as the specification words it: any element,
regardless of its tag, whose class attribute contains card or event as a
case-insensitive substring. Stated from the spec for comparison with
fallbackCardMatch, which is translated from the source. -/
def specFallbackAnyElement (e : DomElement) : Bool :=
  match e.classes with
  | some cl => cl.any fun c => containsCI "card" c || containsCI "event" c
  | none => false

/-- Card selection: the primary selector, falling back to the broader
selector only when the primary finds no card. -/
def selectCards (doc : List DomElement) : List DomElement :=
  let primary := doc.filter primaryCardMatch
  if primary.isEmpty then doc.filter fallbackCardMatch else primary

/-- The three response shapes the endpoint can produce: a 200 body with
the ai_events list, a 401 body with a detail string, or a 500 body with
a detail string. -/
inductive Response where
  | ok (events : List EventRecord)
  | unauthorized (detail : String)
  | serverError (detail : String)
deriving DecidableEq

/-- verify_api_key of main.py: the header value is falsy (absent or the
empty string) or it differs from the configured key, each rejected with
its 401 detail; otherwise verification passes (none). -/
def verify_api_key (x_api_key : Option String) (apiKey : String) : Option String :=
  match x_api_key with
  | none => some "API key is required"
  | some k =>
    if k = "" then some "API key is required"
    else if k ≠ apiKey then some "Invalid API key"
    else none

/-- The GET ai-events handler: verification first (a failure makes the
401 response before any scraping); then the rendered document is parsed,
cards are selected, each card is extracted and filtered, and the kept
records are returned; a renderer failure with message err becomes the
500 response whose detail prepends the fixed text to err. -/
def get_ai_events (x_api_key : Option String) (apiKey : String)
    (render : Except String (List DomElement)) : Response :=
  match verify_api_key x_api_key apiKey with
  | some detail => .unauthorized detail
  | none =>
    match render with
    | .error err => .serverError ("Failed to scrape events: " ++ err)
    | .ok doc =>
      .ok (((selectCards doc).map fun e => extractCard e.card).filter isAiEvent)

/-! Shared sample inputs and helper lemmas. -/

/-- A card with every sub-element missing. -/
def emptyCard : Card :=
  { title_tag := none, date_tag := none, description_tag := none, reg_button := none }

/-- A sample click-handler string that opens the registration URL. -/
def sampleRegOnclick : String :=
  "window.open(" ++ squoteStr ++ "https://reg.example/1" ++ squoteStr ++ ")"

/-- A sample AI event card with a registration button whose click handler
opens a URL. -/
def sampleCardAI : Card :=
  { title_tag := some "Azure AI Summit", date_tag := some "May 5",
    description_tag := some "Join us",
    reg_button := some { onclick := some sampleRegOnclick } }

/-- A one-card document whose element carries the primary class
combination. -/
def sampleDoc : List DomElement :=
  [{ tag := "div", classes := some ["c-card", "bgcolor-white", "grideventscroll"],
     card := sampleCardAI }]

/-- A non-div element whose class attribute contains the token event. -/
def strayElement : DomElement :=
  { tag := "span", classes := some ["event"], card := emptyCard }

lemma get_ai_events_unauthorized_eq (x : Option String) (k : String)
    (render : Except String (List DomElement)) (d : String)
    (hv : verify_api_key x k = some d) :
    get_ai_events x k render = .unauthorized d := by
  unfold get_ai_events
  rw [hv]

lemma get_ai_events_serverError_eq (x : Option String) (k err : String)
    (hv : verify_api_key x k = none) :
    get_ai_events x k (.error err) = .serverError ("Failed to scrape events: " ++ err) := by
  unfold get_ai_events
  rw [hv]

lemma get_ai_events_ok_eq (x : Option String) (k : String) (doc : List DomElement)
    (hv : verify_api_key x k = none) :
    get_ai_events x k (.ok doc)
      = .ok (((selectCards doc).map fun e => extractCard e.card).filter isAiEvent) := by
  unfold get_ai_events
  rw [hv]

/-- Claim C1: every EventRecord contained in a successful (200) response
of the endpoint satisfies the keyword-match predicate on its title or
description; no record failing it is emitted. -/
theorem c1_success_records_match_keyword (x_api_key : Option String) (apiKey : String)
    (doc : List DomElement) (events : List EventRecord)
    (h : get_ai_events x_api_key apiKey (.ok doc) = .ok events) :
    ∀ r ∈ events, isAiEvent r = true := by
  intro r hr
  cases hv : verify_api_key x_api_key apiKey with
  | some d =>
    rw [get_ai_events_unauthorized_eq x_api_key apiKey (.ok doc) d hv] at h
    exact Response.noConfusion h
  | none =>
    rw [get_ai_events_ok_eq x_api_key apiKey doc hv] at h
    injection h with h2
    rw [← h2] at hr
    exact (List.mem_filter.mp hr).2

/-- Witness for C1: a concrete authenticated run over a one-card document
returns exactly one record, and that record matches a keyword. -/
theorem c1_witness :
    isAiEvent { title := "Azure AI Summit", date := "May 5",
                description := "Join us", link := "https://reg.example/1" } = true :=
  c1_success_records_match_keyword (some "k") "k" sampleDoc
    [{ title := "Azure AI Summit", date := "May 5",
       description := "Join us", link := "https://reg.example/1" }]
    (by decide) _ (by simp)

/-- Counterexample to claim C2: a request whose header is present but
equal to the empty string is present and differs from the configured
secret, yet the 401 detail is the missing-credential text, not the
invalid-credential text the claim requires. -/
theorem c2_counterexample :
    get_ai_events (some "") "secret123" (.ok []) = .unauthorized "API key is required" ∧
    get_ai_events (some "") "secret123" (.ok []) ≠ .unauthorized "Invalid API key" := by
  exact ⟨rfl, by decide⟩

/-- Claim C2 as amended: an absent or empty header yields 401 with the
missing-credential detail; a present non-empty header that differs from
the secret yields 401 with the invalid-credential detail; both responses
are produced for every possible render outcome, so no scraping work can
influence them. -/
theorem c2_auth_rejection (x_api_key : Option String) (apiKey : String)
    (render : Except String (List DomElement)) :
    (x_api_key = none ∨ x_api_key = some "" →
      get_ai_events x_api_key apiKey render = .unauthorized "API key is required") ∧
    (∀ k, x_api_key = some k → k ≠ "" → k ≠ apiKey →
      get_ai_events x_api_key apiKey render = .unauthorized "Invalid API key") := by
  constructor
  · rintro (rfl | rfl) <;> rfl
  · rintro k rfl hk hne
    have hv : verify_api_key (some k) apiKey = some "Invalid API key" := by
      simp only [verify_api_key, if_neg hk, if_pos hne]
    exact get_ai_events_unauthorized_eq (some k) apiKey render _ hv

/-- Witness for the amended C2 at concrete requests: both rejection
shapes occur, even when the render outcome would have been a failure. -/
theorem c2_witness :
    get_ai_events none "secret123" (.error "boom") = .unauthorized "API key is required" ∧
    get_ai_events (some "wrong") "secret123" (.error "boom") = .unauthorized "Invalid API key" :=
  ⟨(c2_auth_rejection none "secret123" (.error "boom")).1 (Or.inl rfl),
   (c2_auth_rejection (some "wrong") "secret123" (.error "boom")).2 "wrong" rfl
     (by decide) (by decide)⟩

/-- Claim C3: the keyword-match predicate is a case-insensitive
word-bounded substring match. A match implies the lowercased keyword
occurs as a contiguous substring of the lowercased text; multi-word
keywords need the exact phrase with boundaries on both sides; a keyword
that sits inside a longer word does not match (AI inside Maintenance),
so a card titled Quarterly Maintenance Window has no keyword hit. -/
theorem c3_word_bounded_matching :
    (∀ keyword text, matchesKeyword keyword text = true → lcs keyword <:+: lcs text) ∧
    matchesKeyword "AI" "Maintenance" = false ∧
    matchesKeyword "AI" "Azure AI Summit" = true ∧
    matchesKeyword "Machine Learning" "Hands-on machine learning lab" = true ∧
    matchesKeyword "Machine Learning" "MachineLearning bootcamp" = false ∧
    matchesKeyword "Machine Learning" "Machine and Learning" = false ∧
    keywordHit "Quarterly Maintenance Window" "" = false := by
  refine ⟨?_, by decide, by decide, by decide, by decide, by decide, by decide⟩
  intro keyword text h
  unfold matchesKeyword at h
  rw [List.any_eq_true] at h
  obtain ⟨i, _, hm⟩ := h
  unfold matchKeywordAt at hm
  rw [Bool.and_eq_true, Bool.and_eq_true] at hm
  have hp : lcs keyword <+: (lcs text).drop i :=
    List.isPrefixOf_iff_prefix.mp hm.1.1
  exact hp.isInfix.trans ((lcs text).drop_suffix i).isInfix

/-- Witness for C3: the match of AI in Azure AI Summit yields the
substring occurrence that the general conjunct promises. -/
theorem c3_witness : lcs "AI" <:+: lcs "Azure AI Summit" :=
  c3_word_bounded_matching.1 "AI" "Azure AI Summit" (by decide)

/-- Claim C4: field extraction is a total function on cards and each of
the four fields defaults independently: a missing title or date element
yields N/A, a missing description element yields the empty string, and a
present element yields its text stripped of leading and trailing
whitespace; every emitted record carries all four fields by
construction. -/
theorem c4_extraction_defaults (c : Card) :
    (c.title_tag = none → (extractCard c).title = "N/A") ∧
    (c.date_tag = none → (extractCard c).date = "N/A") ∧
    (c.description_tag = none → (extractCard c).description = "") ∧
    (∀ t, c.title_tag = some t → (extractCard c).title = pyStrip t) ∧
    (∀ t, c.date_tag = some t → (extractCard c).date = pyStrip t) ∧
    (∀ t, c.description_tag = some t → (extractCard c).description = pyStrip t) ∧
    pyStrip "  Azure AI Summit " = "Azure AI Summit" := by
  refine ⟨?_, ?_, ?_, ?_, ?_, ?_, by decide⟩
  · intro h; simp [extractCard, h]
  · intro h; simp [extractCard, h]
  · intro h; simp [extractCard, h]
  · intro t h; simp [extractCard, h]
  · intro t h; simp [extractCard, h]
  · intro t h; simp [extractCard, h]

/-- Witness for C4 at a card with every sub-element missing: all three
text fields take their defaults. -/
theorem c4_witness :
    (extractCard emptyCard).title = "N/A" ∧
    (extractCard emptyCard).date = "N/A" ∧
    (extractCard emptyCard).description = "" :=
  ⟨(c4_extraction_defaults emptyCard).1 rfl,
   (c4_extraction_defaults emptyCard).2.1 rfl,
   (c4_extraction_defaults emptyCard).2.2.1 rfl⟩

/-- A sample click-handler string whose window.open call carries the
URL and a second argument. -/
def sampleOnclick : String :=
  "window.open(" ++ squoteStr ++ "https://example.com/evt" ++ squoteStr ++ ","
    ++ squoteStr ++ "_blank" ++ squoteStr ++ ")"

/-- Claim C5: the link field is the first single-quoted argument of a
window.open call found in the onclick text of the registration button,
and N/A when there is no button, no onclick attribute, or no matching
pattern in the onclick text. -/
theorem c5_link_extraction :
    extractLink { title_tag := none, date_tag := none, description_tag := none,
                  reg_button := some { onclick := some sampleOnclick } }
        = "https://example.com/evt" ∧
    (∀ (c : Card) (b : RegButton) (oc u : String), c.reg_button = some b →
      b.onclick = some oc → findWindowOpenUrl oc = some u → extractLink c = u) ∧
    (∀ c : Card, c.reg_button = none → extractLink c = "N/A") ∧
    (∀ (c : Card) (b : RegButton), c.reg_button = some b → b.onclick = none →
      extractLink c = "N/A") ∧
    (∀ (c : Card) (b : RegButton) (oc : String), c.reg_button = some b →
      b.onclick = some oc → findWindowOpenUrl oc = none → extractLink c = "N/A") := by
  refine ⟨by decide, ?_, ?_, ?_, ?_⟩
  · intro c b oc u h1 h2 h3
    have hne : oc ≠ "" := by
      intro he
      have hnone : findWindowOpenUrl "" = none := rfl
      rw [he, hnone] at h3
      exact Option.noConfusion h3
    simp only [extractLink, h1, h2, if_neg hne, h3]
  · intro c h
    simp [extractLink, h]
  · intro c b h1 h2
    simp [extractLink, h1, h2]
  · intro c b oc h1 h2 h3
    simp only [extractLink, h1, h2, h3]
    by_cases he : oc = "" <;> simp [he]

/-- Witness for C5: the positive capture through the general conjunct at
a concrete card, and the default at a card with no button. -/
theorem c5_witness :
    extractLink sampleCardAI = "https://reg.example/1" ∧
    extractLink emptyCard = "N/A" :=
  ⟨c5_link_extraction.2.1 sampleCardAI { onclick := some sampleRegOnclick }
      sampleRegOnclick "https://reg.example/1" rfl rfl (by decide),
   c5_link_extraction.2.2.1 emptyCard rfl⟩

/-- Counterexample to claim C6: in a document whose only element is a
span with class event, the primary selector yields zero candidates and
the class attribute contains event, so the claimed fallback (any
element) would select it; the code selects nothing, because its fallback
search is restricted to div elements. -/
theorem c6_counterexample :
    List.filter primaryCardMatch [strayElement] = [] ∧
    specFallbackAnyElement strayElement = true ∧
    selectCards [strayElement] = [] := by
  refine ⟨by decide, by decide, by decide⟩

/-- Claim C6 as amended: when the primary selector yields zero
candidates the code falls back to the broader selector over div
elements only (a div one of whose class tokens contains card or event
case-insensitively); when the primary selector yields at least one
candidate the fallback is not used. -/
theorem c6_fallback_selection :
    (∀ doc : List DomElement, doc.filter primaryCardMatch = [] →
      selectCards doc = doc.filter fallbackCardMatch) ∧
    (∀ doc : List DomElement, doc.filter primaryCardMatch ≠ [] →
      selectCards doc = doc.filter primaryCardMatch) ∧
    (∀ e : DomElement,
      fallbackCardMatch e = true ↔ e.tag = "div" ∧ specFallbackAnyElement e = true) := by
  refine ⟨?_, ?_, ?_⟩
  · intro doc h
    simp [selectCards, h]
  · intro doc h
    rw [selectCards, if_neg]
    rw [List.isEmpty_iff]
    exact h
  · intro e
    obtain ⟨tg, cls, cd⟩ := e
    cases cls <;>
      simp [fallbackCardMatch, specFallbackAnyElement, Bool.and_eq_true, beq_iff_eq]

/-- Witness for the amended C6: the stray document triggers the
fallback branch, and an all-div check of the fallback selector. -/
theorem c6_witness :
    selectCards [strayElement] = List.filter fallbackCardMatch [strayElement] ∧
    (fallbackCardMatch strayElement = true ↔
      strayElement.tag = "div" ∧ specFallbackAnyElement strayElement = true) :=
  ⟨c6_fallback_selection.1 [strayElement] (by decide),
   c6_fallback_selection.2.2 strayElement⟩

/-- Claim C7: an authenticated request whose render step fails with
message err gets the 500 response whose detail is the fixed text
followed by err; and every request, whatever its header, key and render
outcome, gets exactly one of the three well-formed response shapes: a
401 detail, a 200 list all of whose records pass the filter, or that
single 500 detail. -/
theorem c7_error_handling (apiKey err : String) (hk : apiKey ≠ "") :
    get_ai_events (some apiKey) apiKey (.error err)
        = .serverError ("Failed to scrape events: " ++ err) ∧
    (∀ (x : Option String) (k : String) (render : Except String (List DomElement)),
      (∃ d, get_ai_events x k render = .unauthorized d) ∨
      (∃ evs, get_ai_events x k render = .ok evs ∧ ∀ r ∈ evs, isAiEvent r = true) ∨
      (∃ e, render = .error e ∧
        get_ai_events x k render = .serverError ("Failed to scrape events: " ++ e))) := by
  constructor
  · have hv : verify_api_key (some apiKey) apiKey = none := by
      simp [verify_api_key, hk]
    exact get_ai_events_serverError_eq (some apiKey) apiKey err hv
  · intro x k render
    cases hv : verify_api_key x k with
    | some d =>
      exact Or.inl ⟨d, get_ai_events_unauthorized_eq x k render d hv⟩
    | none =>
      cases render with
      | error e =>
        exact Or.inr (Or.inr ⟨e, rfl, get_ai_events_serverError_eq x k e hv⟩)
      | ok doc =>
        refine Or.inr (Or.inl ⟨_, get_ai_events_ok_eq x k doc hv, ?_⟩)
        intro r hr
        exact (List.mem_filter.mp hr).2

/-- Witness for C7 at a concrete authenticated failing request. -/
theorem c7_witness :
    get_ai_events (some "secret123") "secret123" (.error "boom")
      = .serverError ("Failed to scrape events: " ++ "boom") :=
  (c7_error_handling "secret123" "boom" (by decide)).1

/-- Claim C8: the topic filter is idempotent (filtering an
already-filtered list returns it unchanged) and order preserving (its
output is a sublist of its input). -/
theorem c8_filter_idempotent_order_preserving :
    (∀ l : List EventRecord, filterEvents (filterEvents l) = filterEvents l) ∧
    (∀ l : List EventRecord, (filterEvents l).Sublist l) := by
  constructor
  · intro l
    unfold filterEvents
    rw [List.filter_filter]
    simp
  · intro l
    exact List.filter_sublist l

/-- Claim C9: a card missing both its title heading and its description
paragraph is extracted to a record with title N/A and empty description,
and no keyword matches that pair, so the record is excluded. -/
theorem c9_missing_title_description_excluded (c : Card)
    (ht : c.title_tag = none) (hd : c.description_tag = none) :
    isAiEvent (extractCard c) = false := by
  have h1 : (extractCard c).title = "N/A" := by simp [extractCard, ht]
  have h2 : (extractCard c).description = "" := by simp [extractCard, hd]
  have hrw : isAiEvent (extractCard c) = keywordHit "N/A" "" := by
    unfold isAiEvent
    rw [h1, h2]
  rw [hrw]
  decide

/-- Witness for C9 at the card with every sub-element missing. -/
theorem c9_witness : isAiEvent (extractCard emptyCard) = false :=
  c9_missing_title_description_excluded emptyCard rfl rfl

/-- Claim C10: the include decision reads only title and description:
two records that agree on those two fields get the same decision
whatever their date and link fields, and likewise for the records
extracted from two cards whose extractions agree on those fields. -/
theorem c10_filter_noninterference :
    (∀ r₁ r₂ : EventRecord, r₁.title = r₂.title → r₁.description = r₂.description →
      isAiEvent r₁ = isAiEvent r₂) ∧
    (∀ c₁ c₂ : Card, (extractCard c₁).title = (extractCard c₂).title →
      (extractCard c₁).description = (extractCard c₂).description →
      isAiEvent (extractCard c₁) = isAiEvent (extractCard c₂)) := by
  constructor
  · intro r₁ r₂ ht hd
    unfold isAiEvent
    rw [ht, hd]
  · intro c₁ c₂ ht hd
    unfold isAiEvent
    rw [ht, hd]

/-- Witness for C10: two records equal in title and description but
different in date and link get the same decision. -/
theorem c10_witness :
    isAiEvent { title := "AI camp", date := "May 1", description := "x", link := "a" }
      = isAiEvent { title := "AI camp", date := "May 2", description := "x", link := "b" } :=
  c10_filter_noninterference.1
    { title := "AI camp", date := "May 1", description := "x", link := "a" }
    { title := "AI camp", date := "May 2", description := "x", link := "b" } rfl rfl
